import Mathlib

/-!
Shallow embedding of `status_api.py` (DrCastiel dashboard status API).

The Python module aggregates local machine metrics, systemd unit states and
concurrent HTTP probes of three public endpoints into one JSON payload.
Every independently-failing source is modelled as an explicit input
(`Option` for a value that may be absent, an outcome inductive for a probe),
and each Python helper becomes a total Lean function over those inputs.

String handling: the Python code uses `str.strip`, `str.splitlines`,
`str.startswith`, slicing after `split("=", 1)` and `str.isdigit`.  These are
re-implemented here on `List Char` (wrapped back into `String`) so that every
definition evaluates inside the kernel on concrete inputs.  Lines are split on
the newline character, which is the separator appearing in `systemctl show`
output; numeric parsing accepts exactly the nonempty all-digit strings that
`str.isdigit` accepts for ASCII input.
-/

/-- Character-level version of Python `str.strip()`: remove leading and
trailing whitespace. -/
def pyStrip (s : String) : String :=
  ⟨((s.data.dropWhile Char.isWhitespace).reverse.dropWhile Char.isWhitespace).reverse⟩

/-- Split a character list at every occurrence of `c` (the pieces do not
contain `c`). -/
def splitOnChar (c : Char) : List Char → List (List Char)
  | [] => [[]]
  | x :: xs =>
    if x = c then
      [] :: splitOnChar c xs
    else
      match splitOnChar c xs with
      | [] => [[x]]
      | g :: gs => (x :: g) :: gs

/-- Python `str.splitlines()` restricted to the newline separator, which is
the one produced by `systemctl show`.  (A trailing empty piece is kept; it
never matches a `Key=` line, so parsing is unaffected.) -/
def pySplitlines (s : String) : List String :=
  (splitOnChar '\n' s.data).map String.mk

/-- Python `line.startswith(pre)`. -/
def pyStartsWith (pre line : String) : Bool :=
  pre.data.isPrefixOf line.data

/-- Python slicing `s[n:]` at a character offset. -/
def pyDropChars (n : Nat) (s : String) : String :=
  ⟨s.data.drop n⟩

/-- Accumulator pass turning a digit list into its decimal value. -/
def digitsToNatAux : List Char → Nat → Nat
  | [], acc => acc
  | c :: cs, acc => digitsToNatAux cs (acc * 10 + (c.toNat - '0'.toNat))

/-- Python `raw.isdigit()` (ASCII) followed by integer conversion: `some x`
exactly when the string is nonempty and all digits, in which case `x` is its
decimal value. -/
def pyParseNonNegInt (s : String) : Option Nat :=
  if s.data.isEmpty then none
  else if s.data.all Char.isDigit then some (digitsToNatAux s.data 0)
  else none

/-! ## Data model (section 3 of the spec, mirrored from the source dicts) -/

/-- One entry of `PUBLIC_ENDPOINTS`. -/
structure EndpointSpec where
  id : String
  name : String
  url : String
deriving DecidableEq, Repr

/-- Result dict built by `_probe_http` (and the synthetic failure default in
`_public_endpoint_status`). -/
structure ProbeResult where
  ok : Bool
  http_status : Option Nat
  latency_ms : Option Nat
  error : Option String
deriving DecidableEq, Repr

/-- One element of the `public_endpoints` list in the payload: the endpoint's
`id`/`name`/`url` merged with its probe result fields. -/
structure EndpointEntry where
  id : String
  name : String
  url : String
  ok : Bool
  http_status : Option Nat
  latency_ms : Option Nat
  error : Option String
deriving DecidableEq, Repr

/-- Dict returned by `_mem_stats`. -/
structure MemStats where
  total_bytes : Nat
  used_bytes : Nat
  used_pct : ℚ
deriving DecidableEq, Repr

/-- Dict returned by `_disk_stats`. -/
structure DiskStats where
  total_bytes : Nat
  used_bytes : Nat
  used_pct : ℚ
deriving DecidableEq, Repr

/-- Dict returned by `_net_io`. -/
structure NetStats where
  tx_bytes : Nat
  rx_bytes : Nat
deriving DecidableEq, Repr

/-- Dict returned by `_systemctl_active_state`. -/
structure ServiceState where
  unit : String
  active_state : Option String
  sub_state : Option String
deriving DecidableEq, Repr

/-- The `pi` sub-object of the payload. -/
structure PiSnapshot where
  uptime_seconds : Option ℚ
  uptime_human : Option String
  cpu_temp_c : Option ℚ
  load_1m : Option ℚ
  mem : Option MemStats
  disk : Option DiskStats
  net : Option NetStats
  health : String
deriving DecidableEq, Repr

/-- The whole `/api/status` payload. -/
structure StatusPayload where
  ts : String
  public_endpoints : List EndpointEntry
  pi : PiSnapshot
  services : List (String × ServiceState)
deriving DecidableEq, Repr

/-- The module-level `PUBLIC_ENDPOINTS` constant. -/
def PUBLIC_ENDPOINTS : List EndpointSpec :=
  [ ⟨"dev", "Crown Dev Site", "https://dev.drcastiel.com"⟩,
    ⟨"admin", "Admin Portal", "https://admin.drcastiel.com"⟩,
    ⟨"home", "DrCastiel Home", "https://drcastiel.com"⟩ ]

/-! ## `_probe_http` -/

/-- Outcome of one `urllib.request.urlopen` call, as far as `_probe_http`
can observe it: a response object carrying a status (the code reads
`getattr(resp, "status", 0) or 0`, so a missing status appears as `0`), an
`HTTPError` carrying a code (again `0` when absent), or any other exception
carrying its string form.  Each constructor also carries the measured
latency in milliseconds (already rounded, as in the source). -/
inductive ProbeOutcome where
  | response (status : Nat) (latency_ms : Nat)
  | httpError (code : Nat) (latency_ms : Nat)
  | failure (msg : String) (latency_ms : Nat)
deriving DecidableEq, Repr

/-- Embedding of `_probe_http`: classify one probe outcome into a
`ProbeResult`, as the three branches of the source do. -/
def _probe_http : ProbeOutcome → ProbeResult
  | .response status l =>
    { ok := decide (200 ≤ status ∧ status < 500)
      http_status := some status
      latency_ms := some l
      error := none }
  | .httpError code l =>
    { ok := decide (200 ≤ code ∧ code < 500)
      http_status := if code = 0 then none else some code
      latency_ms := some l
      error := none }
  | .failure msg l =>
    { ok := false
      http_status := none
      latency_ms := some l
      error := some msg }

/-! ## `_public_endpoint_status` -/

/-- The synthetic failure dict substituted in `_public_endpoint_status` when
`results_by_id` has no entry for an endpoint id. -/
def syntheticProbeFailure : ProbeResult :=
  { ok := false, http_status := none, latency_ms := none, error := some "Probe failed" }

/-- Embedding of `_public_endpoint_status`.  The thread pool's fan-in fills a
dict keyed by endpoint id; since ids are unique, any completion order yields
the same mapping, so the dict is modelled as a lookup function
`results_by_id : String → Option ProbeResult` (`none` = no result arrived for
that id).  The output is rebuilt in the declaration order of
`PUBLIC_ENDPOINTS`, substituting `syntheticProbeFailure` for a missing id. -/
def _public_endpoint_status (results_by_id : String → Option ProbeResult) :
    List EndpointEntry :=
  PUBLIC_ENDPOINTS.map fun e =>
    let r := (results_by_id e.id).getD syntheticProbeFailure
    { id := e.id, name := e.name, url := e.url,
      ok := r.ok, http_status := r.http_status,
      latency_ms := r.latency_ms, error := r.error }

/-! ## Claim C3: probe classification when a status code is obtained -/

/-- C3.  Whenever `_probe_http` obtains an HTTP status code `s` — from a
normal response, or from an `HTTPError` with a (nonzero) code — the result
has `ok = true` exactly when `200 ≤ s < 500`, `http_status = s` and
`error` absent; in particular 404 gives `ok = true` and 503 gives
`ok = false`, whichever way the code arrives. -/
theorem probe_http_status_classification
    (s c l : Nat) (hc : 1 ≤ c) :
    ((_probe_http (.response s l)).ok = true ↔ (200 ≤ s ∧ s < 500)) ∧
    (_probe_http (.response s l)).http_status = some s ∧
    (_probe_http (.response s l)).error = none ∧
    (((_probe_http (.httpError c l)).ok = true ↔ (200 ≤ c ∧ c < 500)) ∧
      (_probe_http (.httpError c l)).http_status = some c ∧
      (_probe_http (.httpError c l)).error = none) ∧
    _probe_http (.response 404 l) =
      { ok := true, http_status := some 404, latency_ms := some l, error := none } ∧
    _probe_http (.httpError 404 l) =
      { ok := true, http_status := some 404, latency_ms := some l, error := none } ∧
    _probe_http (.response 503 l) =
      { ok := false, http_status := some 503, latency_ms := some l, error := none } ∧
    _probe_http (.httpError 503 l) =
      { ok := false, http_status := some 503, latency_ms := some l, error := none } := by
  refine ⟨by simp [_probe_http], by simp [_probe_http], by simp [_probe_http], ⟨?_, ?_, ?_⟩,
    ?_, ?_, ?_, ?_⟩
  · simp [_probe_http]
  · have : c ≠ 0 := by omega
    simp [_probe_http, this]
  · simp [_probe_http]
  all_goals simp [_probe_http]

/-- Witness for `probe_http_status_classification` at `s = 200`, `c = 503`,
`l = 10`. -/
theorem probe_http_status_classification_witness :
    ((_probe_http (.response 200 10)).ok = true ↔ (200 ≤ 200 ∧ 200 < 500)) ∧
    (_probe_http (.response 200 10)).http_status = some 200 ∧
    (_probe_http (.response 200 10)).error = none ∧
    (((_probe_http (.httpError 503 10)).ok = true ↔ (200 ≤ 503 ∧ 503 < 500)) ∧
      (_probe_http (.httpError 503 10)).http_status = some 503 ∧
      (_probe_http (.httpError 503 10)).error = none) ∧
    _probe_http (.response 404 10) =
      { ok := true, http_status := some 404, latency_ms := some 10, error := none } ∧
    _probe_http (.httpError 404 10) =
      { ok := true, http_status := some 404, latency_ms := some 10, error := none } ∧
    _probe_http (.response 503 10) =
      { ok := false, http_status := some 503, latency_ms := some 10, error := none } ∧
    _probe_http (.httpError 503 10) =
      { ok := false, http_status := some 503, latency_ms := some 10, error := none } :=
  probe_http_status_classification 200 503 10 (by decide)

/-! ## Claim C5: probe classification for failures without a status code -/

/-- C5.  For a probe failure that is not an HTTP-layer error with a code
(DNS, TLS, connection refusal, timeout), `_probe_http` reports `ok = false`,
an absent `http_status`, and `error` equal to the exception's string form —
a nonempty string whenever the underlying exception renders nonempty. -/
theorem probe_http_failure_classification
    (msg : String) (l : Nat) (hmsg : msg ≠ "") :
    _probe_http (.failure msg l) =
      { ok := false, http_status := none, latency_ms := some l, error := some msg } ∧
    ∃ e, (_probe_http (.failure msg l)).error = some e ∧ e ≠ "" := by
  exact ⟨rfl, msg, rfl, hmsg⟩

/-- Witness for `probe_http_failure_classification` with the message of a
timed-out probe. -/
theorem probe_http_failure_classification_witness :
    _probe_http (.failure "<urlopen error timed out>" 2500) =
      { ok := false, http_status := none, latency_ms := some 2500,
        error := some "<urlopen error timed out>" } ∧
    ∃ e, (_probe_http (.failure "<urlopen error timed out>" 2500)).error = some e ∧
      e ≠ "" :=
  probe_http_failure_classification "<urlopen error timed out>" 2500 (by decide)

/-! ## Claim C1: shape of `_public_endpoint_status` -/

/-- C1.  For every assignment of probe results to endpoint ids (covering
every probe outcome and completion order), `_public_endpoint_status` returns
exactly one entry per declared endpoint, in declaration order
(dev, admin, home) with the declared names and urls; and any endpoint whose
result never arrived gets the synthetic failure merged with its id, name and
url. -/
theorem public_endpoint_status_shape
    (results_by_id : String → Option ProbeResult) :
    (_public_endpoint_status results_by_id).length = PUBLIC_ENDPOINTS.length ∧
    (_public_endpoint_status results_by_id).map
        (fun e => (e.id, e.name, e.url)) =
      PUBLIC_ENDPOINTS.map (fun e => (e.id, e.name, e.url)) ∧
    ∀ entry ∈ _public_endpoint_status results_by_id,
      results_by_id entry.id = none →
        entry.ok = false ∧ entry.http_status = none ∧
        entry.latency_ms = none ∧ entry.error = some "Probe failed" := by
  refine ⟨by simp [_public_endpoint_status], by simp [_public_endpoint_status], ?_⟩
  intro entry hmem hnone
  simp only [_public_endpoint_status, PUBLIC_ENDPOINTS, List.map_cons, List.map_nil,
    List.mem_cons, List.not_mem_nil, or_false] at hmem
  rcases hmem with h | h | h <;>
    subst h <;>
    simp_all [syntheticProbeFailure]

/-- Witness for `public_endpoint_status_shape` with no probe result arriving
for any endpoint. -/
theorem public_endpoint_status_shape_witness :
    ((_public_endpoint_status fun _ => none).length = PUBLIC_ENDPOINTS.length ∧
    (_public_endpoint_status fun _ => none).map
        (fun e => (e.id, e.name, e.url)) =
      PUBLIC_ENDPOINTS.map (fun e => (e.id, e.name, e.url)) ∧
    ∀ entry ∈ _public_endpoint_status fun _ => none,
      (fun _ => (none : Option ProbeResult)) entry.id = none →
        entry.ok = false ∧ entry.http_status = none ∧
        entry.latency_ms = none ∧ entry.error = some "Probe failed") :=
  public_endpoint_status_shape (fun _ => none)

/-! ## `_run` and `_systemctl_active_state` -/

/-- Embedding of `_run`: the subprocess either captures combined output text
(`some out`, then stripped) or fails in any way — missing binary, nonzero
exit, timeout — (`none`, mapped to the empty string by the `except` branch). -/
def _run (captured : Option String) : String :=
  match captured with
  | some out => pyStrip out
  | none => ""

/-- One step of the parsing loop body in `_systemctl_active_state`:
update the `(active, sub)` pair from one line. -/
def systemctlParseStep (acc : Option String × Option String) (line : String) :
    Option String × Option String :=
  if pyStartsWith "ActiveState=" line then
    (let v := pyDropChars 12 line
     ((if v = "" then none else some v), acc.2))
  else if pyStartsWith "SubState=" line then
    (acc.1,
     let v := pyDropChars 9 line
     (if v = "" then none else some v))
  else acc

/-- Embedding of `_systemctl_active_state`: run `systemctl show` (modelled by
its captured-output outcome), then scan the lines for `ActiveState=` and
`SubState=`, an empty value after `=` becoming absent. -/
def _systemctl_active_state (unit : String) (captured : Option String) :
    ServiceState :=
  let out := _run captured
  let parsed := (pySplitlines out).foldl systemctlParseStep (none, none)
  { unit := unit, active_state := parsed.1, sub_state := parsed.2 }

/-- Value the parse loop extracts from a single matching line: the text after
the first `=`, or absent when empty.  (The prefixes contain exactly one `=`,
as their last character, so Python's `line.split("=", 1)[1]` is the text
after the prefix.) -/
def lineValueAfter (n : Nat) (line : String) : Option String :=
  let v := pyDropChars n line
  if v = "" then none else some v

/-- Spec-side reading of the loop: the value comes from the last line
carrying the given marker (later lines overwrite earlier ones). -/
def lastMarkedValue (pre : String) (n : Nat) (lines : List String) :
    Option String :=
  match (lines.reverse.find? (pyStartsWith pre)) with
  | none => none
  | some line => lineValueAfter n line

/-- Helper: `find?` over a list with one element appended. -/
theorem find?_append_singleton {α : Type} (p : α → Bool) (l : List α) (x : α) :
    (l ++ [x]).find? p =
      match l.find? p with
      | some y => some y
      | none => if p x then some x else none := by
  induction l with
  | nil => cases h : p x <;> simp [List.find?, h]
  | cons a as ih =>
    by_cases h : p a <;> simp [List.find?, h, ih]

/-- Helper: the fold over lines computes, in each component, the value of the
last matching line, falling back to the initial accumulator. -/
theorem systemctl_foldl_eq_lastMarked (lines : List String)
    (a s : Option String) :
    (lines.foldl systemctlParseStep (a, s)) =
      ((match lines.reverse.find? (pyStartsWith "ActiveState=") with
        | none => a
        | some line => lineValueAfter 12 line),
       (match lines.reverse.find? (pyStartsWith "SubState=") with
        | none => s
        | some line => lineValueAfter 9 line)) := by
  induction lines generalizing a s with
  | nil => simp
  | cons x xs ih =>
    have hsub : pyStartsWith "ActiveState=" x = true →
        pyStartsWith "SubState=" x = false := by
      intro h
      cases hx : pyStartsWith "SubState=" x with
      | false => rfl
      | true =>
        exfalso
        simp only [pyStartsWith, List.isPrefixOf_iff_prefix] at h hx
        have h12 : x.data.take 12 = "ActiveState=".data :=
          (List.prefix_iff_eq_take.mp h).symm
        have h9 : x.data.take 9 = "SubState=".data :=
          (List.prefix_iff_eq_take.mp hx).symm
        have hmin : (9 : Nat) ⊓ 12 = 9 := by norm_num
        have hcontr : ("ActiveState=".data).take 9 = "SubState=".data := by
          rw [← h12, List.take_take, hmin]
          exact h9
        exact absurd hcontr (by decide)
    simp only [List.foldl_cons, List.reverse_cons, find?_append_singleton, ih]
    by_cases hA : pyStartsWith "ActiveState=" x
    · have hS := hsub hA
      simp only [systemctlParseStep, hA, hS, if_true, Bool.false_eq_true, if_false]
      cases hfA : xs.reverse.find? (pyStartsWith "ActiveState=") <;>
        cases hfS : xs.reverse.find? (pyStartsWith "SubState=") <;>
          simp [hA, hS, lineValueAfter]
    · by_cases hS : pyStartsWith "SubState=" x
      · simp only [systemctlParseStep, hA, hS, Bool.false_eq_true, if_false, if_true]
        cases hfA : xs.reverse.find? (pyStartsWith "ActiveState=") <;>
          cases hfS : xs.reverse.find? (pyStartsWith "SubState=") <;>
            simp [hA, hS, lineValueAfter]
      · simp only [systemctlParseStep, hA, hS, Bool.false_eq_true, if_false]
        cases hfA : xs.reverse.find? (pyStartsWith "ActiveState=") <;>
          cases hfS : xs.reverse.find? (pyStartsWith "SubState=") <;>
            simp [hA, hS]

/-! ## Claim C6 (corrected): `_systemctl_active_state` -/

/-- C6 counterexample.  The claim says the values are taken from the *first*
matching lines; but the loop lets later lines overwrite earlier ones, so on
output with two `ActiveState=` lines the *last* one wins: here the first
matching line carries `inactive`, yet the parsed state is `active`. -/
theorem systemctl_first_match_counterexample :
    (pySplitlines (pyStrip "ActiveState=inactive\nActiveState=active\nSubState=dead\nSubState=running")).find?
        (pyStartsWith "ActiveState=") = some "ActiveState=inactive" ∧
    (_systemctl_active_state "nginx.service"
        (some "ActiveState=inactive\nActiveState=active\nSubState=dead\nSubState=running")).active_state
      = some "active" ∧
    (_systemctl_active_state "nginx.service"
        (some "ActiveState=inactive\nActiveState=active\nSubState=dead\nSubState=running")).active_state
      ≠ some "inactive" ∧
    (_systemctl_active_state "nginx.service"
        (some "ActiveState=inactive\nActiveState=active\nSubState=dead\nSubState=running")).sub_state
      = some "running" := by
  refine ⟨by decide, by decide, by decide, by decide⟩

/-- C6 (amended).  For every unit name and captured output text, the parser
takes `active_state` from the *last* line with marker `ActiveState=` and
`sub_state` from the *last* line with marker `SubState=` (each value being
the text after the first `=`, empty mapped to absent); and every failure of
the underlying command yields `{unit, active_state: absent,
sub_state: absent}` without raising. -/
theorem systemctl_active_state_spec (unit : String) (out : String) :
    _systemctl_active_state unit (some out) =
      { unit := unit
        active_state :=
          lastMarkedValue "ActiveState=" 12 (pySplitlines (pyStrip out))
        sub_state :=
          lastMarkedValue "SubState=" 9 (pySplitlines (pyStrip out)) } ∧
    _systemctl_active_state unit none =
      { unit := unit, active_state := none, sub_state := none } := by
  constructor
  · simp only [_systemctl_active_state, _run,
      systemctl_foldl_eq_lastMarked, lastMarkedValue]
  · rfl


/-! ## `_human_uptime` -/

/-- Embedding of `_human_uptime`.  `int(seconds)` truncates toward zero
(`Int.tdiv` of the rational's numerator by its denominator); Python's
`divmod` is floor division (`Int.fdiv` / `Int.fmod`). -/
def _human_uptime (seconds : Option ℚ) : Option String :=
  match seconds with
  | none => none
  | some q =>
    let s : Int := Int.tdiv q.num (q.den : Int)
    let days : Int := Int.fdiv s 86400
    let rem : Int := Int.fmod s 86400
    let hrs : Int := Int.fdiv rem 3600
    let rem2 : Int := Int.fmod rem 3600
    let mins : Int := Int.fdiv rem2 60
    if days > 0 then some s!"{days}d {hrs}h {mins}m"
    else if hrs > 0 then some s!"{hrs}h {mins}m"
    else some s!"{mins}m"

/-- Formatting rule as the spec words it, over a whole number of seconds:
fixed-width bucketing on whole days, hours and minutes. -/
def humanUptimeSpec (n : Nat) : String :=
  let d := n / 86400
  let h := n % 86400 / 3600
  let m := n % 86400 % 3600 / 60
  if d > 0 then s!"{d}d {h}h {m}m"
  else if h > 0 then s!"{h}h {m}m"
  else s!"{m}m"

/-- Helper: floor division of nat casts is nat division. -/
theorem fdiv_natCast (a b : Nat) :
    Int.fdiv (a : Int) (b : Int) = ((a / b : Nat) : Int) := by
  exact_mod_cast (Int.ofNat_fdiv a b).symm

/-- Helper: floor remainder of nat casts is the nat remainder. -/
theorem fmod_natCast (a b : Nat) :
    Int.fmod (a : Int) (b : Int) = ((a % b : Nat) : Int) := by
  exact_mod_cast (Int.ofNat_fmod a b).symm

/-- Helper: printing a nat cast to `Int` prints the nat. -/
theorem toString_natCast (n : Nat) : toString ((n : Int)) = toString n := rfl

/-! ## Claim C7: `_human_uptime` -/

/-- C7.  `_human_uptime` maps absent to absent; on a whole number of seconds
it applies the spec's fixed-width bucketing (`humanUptimeSpec`); on any
rational it first truncates toward zero; and 90 s gives "1m", 3700 s gives
"1h 1m", 90000 s gives "1d 1h 0m". -/
theorem human_uptime_correct (n : Nat) :
    _human_uptime none = none ∧
    _human_uptime (some (n : ℚ)) = some (humanUptimeSpec n) ∧
    (∀ q : ℚ,
      _human_uptime (some q) =
        _human_uptime (some ((Int.tdiv q.num (q.den : Int) : Int) : ℚ))) ∧
    _human_uptime (some 90) = some "1m" ∧
    _human_uptime (some 3700) = some "1h 1m" ∧
    _human_uptime (some 90000) = some "1d 1h 0m" := by
  refine ⟨rfl, ?_, ?_, by decide, by decide, by decide⟩
  · have hnum : ((n : ℚ)).num = (n : Int) := Rat.num_natCast n
    have hden : ((n : ℚ)).den = 1 := Rat.den_natCast n
    have htd : Int.tdiv ((n : ℚ)).num (((n : ℚ)).den : Int) = (n : Int) := by
      rw [hnum, hden]
      exact Int.tdiv_one (n : Int)
    simp only [_human_uptime, humanUptimeSpec, htd]
    have h86400 : (86400 : Int) = ((86400 : Nat) : Int) := rfl
    have h3600 : (3600 : Int) = ((3600 : Nat) : Int) := rfl
    have h60 : (60 : Int) = ((60 : Nat) : Int) := rfl
    rw [h86400, h3600, h60]
    simp only [fdiv_natCast, fmod_natCast, gt_iff_lt, Nat.cast_pos,
      toString_natCast]
    split_ifs <;> rfl
  · intro q
    have hnum : (((Int.tdiv q.num (q.den : Int) : Int) : ℚ)).num =
        Int.tdiv q.num (q.den : Int) := Rat.num_intCast _
    have hden : (((Int.tdiv q.num (q.den : Int) : Int) : ℚ)).den = 1 :=
      Rat.den_intCast _
    simp only [_human_uptime, hnum, hden, Nat.cast_one, Int.tdiv_one]

/-! ## `_cpu_temp_c` -/

/-- Attempt to read one thermal file: `none` when the file is unreadable or
its stripped content is not a nonnegative integer (Python `raw.isdigit()`). -/
def tempFromFile (f : Option String) : Option Nat :=
  f.bind fun content => pyParseNonNegInt (pyStrip content)

/-- Embedding of `_cpu_temp_c`: walk the thermal source files in their fixed
order, return the first successful parse scaled by 1/1000, otherwise fall
back to the outcome of `psutil.sensors_temperatures()` (modelled as an
optional reading, `none` when that source also fails). -/
def _cpu_temp_c : List (Option String) → Option ℚ → Option ℚ
  | [], fallback => fallback
  | f :: rest, fallback =>
    match tempFromFile f with
    | some x => some ((x : ℚ) / 1000)
    | none => _cpu_temp_c rest fallback

/-! ## Claim C8: `_cpu_temp_c` -/

/-- C8.  The first file (in the fixed order) whose stripped content parses as
a nonnegative integer `x` yields `x / 1000`, files that fail to parse are
skipped; when every file source fails, the result is the generic sensor-API
fallback, and the result is absent exactly when every source fails. -/
theorem cpu_temp_c_first_parse
    (pre post : List (Option String)) (c : String) (fb : Option ℚ) (x : Nat)
    (hpre : ∀ f ∈ pre, tempFromFile f = none)
    (hc : pyParseNonNegInt (pyStrip c) = some x) :
    _cpu_temp_c (pre ++ some c :: post) fb = some ((x : ℚ) / 1000) ∧
    (∀ files : List (Option String),
      (∀ f ∈ files, tempFromFile f = none) → _cpu_temp_c files fb = fb) ∧
    (∀ files : List (Option String),
      _cpu_temp_c files fb = none ↔
        ((∀ f ∈ files, tempFromFile f = none) ∧ fb = none)) := by
  have hall : ∀ (files : List (Option String)),
      (∀ f ∈ files, tempFromFile f = none) → _cpu_temp_c files fb = fb := by
    intro files h
    induction files with
    | nil => rfl
    | cons f fs ih =>
      have hf : tempFromFile f = none := h f (by simp)
      simp only [_cpu_temp_c, hf]
      exact ih fun g hg => h g (by simp [hg])
  refine ⟨?_, hall, ?_⟩
  · induction pre with
    | nil =>
      simp only [List.nil_append, _cpu_temp_c, tempFromFile, Option.bind, hc]
    | cons f fs ih =>
      have hf : tempFromFile f = none := hpre f (by simp)
      simp only [List.cons_append, _cpu_temp_c, hf]
      exact ih fun g hg => hpre g (by simp [hg])
  · intro files
    constructor
    · intro hnone
      induction files with
      | nil => exact ⟨by simp, hnone⟩
      | cons f fs ih =>
        cases hf : tempFromFile f with
        | some y => simp [_cpu_temp_c, hf] at hnone
        | none =>
          simp only [_cpu_temp_c, hf] at hnone
          obtain ⟨hfs, hfb⟩ := ih hnone
          refine ⟨fun g hg => ?_, hfb⟩
          rcases List.mem_cons.mp hg with h | h
          · exact h ▸ hf
          · exact hfs g h
    · rintro ⟨hfiles, hfb⟩
      rw [hall files hfiles]
      exact hfb

/-- Witness for `cpu_temp_c_first_parse`: an unreadable file and a
non-numeric file are skipped, then ` 42000 ` parses and later files and the
fallback are ignored. -/
theorem cpu_temp_c_first_parse_witness :
    _cpu_temp_c ([none, some "abc"] ++ some " 42000 " :: [some "50000"]) none =
      some ((42000 : ℚ) / 1000) ∧
    (∀ files : List (Option String),
      (∀ f ∈ files, tempFromFile f = none) →
        _cpu_temp_c files (none : Option ℚ) = none) ∧
    (∀ files : List (Option String),
      _cpu_temp_c files (none : Option ℚ) = none ↔
        ((∀ f ∈ files, tempFromFile f = none) ∧ (none : Option ℚ) = none)) :=
  cpu_temp_c_first_parse [none, some "abc"] [some "50000"] " 42000 " none 42000
    (by decide) (by decide)

/-! ## `_health` -/

/-- The three-way threshold bucket the source repeats for memory, disk and
temperature: below `lo` scores +1, in `[lo, hi)` scores 0, at or above `hi`
scores −1. -/
def bucketScore (p lo hi : ℚ) : Int :=
  if p < lo then 1 else if p < hi then 0 else -1

/-- Embedding of `_health`: sum the three independent bucket contributions
(absent input contributes nothing) and translate the score into a verdict. -/
def _health (mem : Option MemStats) (disk : Option DiskStats)
    (temp_c : Option ℚ) : String :=
  let score : Int :=
    (match mem with
     | some m => bucketScore m.used_pct 80 90
     | none => 0)
    + (match disk with
       | some d => bucketScore d.used_pct 80 90
       | none => 0)
    + (match temp_c with
       | some t => bucketScore t 70 80
       | none => 0)
  if score ≥ 2 then "good" else if score ≤ -1 then "bad" else "warn"

/-- Contribution table in the claim's own words: `< lo` adds 1, `[lo, hi)`
adds 0, `≥ hi` subtracts 1, absent adds nothing. -/
def healthContribSpec (pct : Option ℚ) (lo hi : ℚ) : Int :=
  match pct with
  | none => 0
  | some p => if p < lo then 1 else if lo ≤ p ∧ p < hi then 0 else -1

/-- Health classifier in the claim's own words, as a function of the two
used percentages and the temperature. -/
def healthSpec (memPct diskPct tempC : Option ℚ) : String :=
  let score := healthContribSpec memPct 80 90 + healthContribSpec diskPct 80 90
    + healthContribSpec tempC 70 80
  if score ≥ 2 then "good" else if score ≤ -1 then "bad" else "warn"

/-- Helper: the source's bucket equals the claim's interval phrasing. -/
theorem bucketScore_eq_spec (p lo hi : ℚ) :
    bucketScore p lo hi =
      (if p < lo then 1 else if lo ≤ p ∧ p < hi then 0 else -1) := by
  unfold bucketScore
  by_cases h1 : p < lo
  · simp [h1]
  · simp only [h1, if_false]
    by_cases h2 : p < hi
    · simp [h2, le_of_not_lt h1]
    · simp [h2]

/-! ## Claim C4: `_health` -/

/-- C4.  `_health` is the pure threshold classifier described by the spec:
it agrees with `healthSpec` (the claim's contribution table and verdict
thresholds) on every input, and on the three quoted examples it returns
"good", "warn" and "bad" respectively. -/
theorem health_matches_spec
    (mem : Option MemStats) (disk : Option DiskStats) (t : Option ℚ) :
    _health mem disk t =
      healthSpec (mem.map MemStats.used_pct) (disk.map DiskStats.used_pct) t ∧
    _health (some ⟨1000, 500, 50⟩) (some ⟨1000, 500, 50⟩) (some 40) = "good" ∧
    _health (some ⟨1000, 950, 95⟩) (some ⟨1000, 500, 50⟩) (some 40) = "warn" ∧
    _health (some ⟨1000, 950, 95⟩) (some ⟨1000, 950, 95⟩) (some 85) = "bad" := by
  refine ⟨?_, by decide, by decide, by decide⟩
  rcases mem with _ | m <;> rcases disk with _ | d <;> rcases t with _ | tc <;>
    simp only [_health, healthSpec, healthContribSpec, Option.map_none',
      Option.map_some', bucketScore_eq_spec]

/-! ## `_disk_stats` -/

/-- Embedding of `_disk_stats`.  When psutil is importable the psutil reading
(total, used, percent) is used as-is; otherwise the `shutil.disk_usage`
fallback computes `used / total * 100`, guarded to `0.0` when `total` is
zero.  A failed reading (`none`) yields an absent result in either path. -/
def _disk_stats (psutilAvailable : Bool)
    (shutilDu : Option (Nat × Nat)) (psutilDu : Option (Nat × Nat × ℚ)) :
    Option DiskStats :=
  if psutilAvailable then
    match psutilDu with
    | some (total, used, pct) =>
      some { total_bytes := total, used_bytes := used, used_pct := pct }
    | none => none
  else
    match shutilDu with
    | some (total, used) =>
      some { total_bytes := total, used_bytes := used,
             used_pct := if total ≠ 0 then ((used : ℚ) / (total : ℚ)) * 100 else 0 }
    | none => none

/-! ## Claim C10: the shutil fallback path never divides by zero -/

/-- C10.  In the fallback path used when psutil is unavailable, a reading
with `total_bytes = 0` yields `used_pct = 0` (the guard short-circuits the
`used / total` computation), and a failed reading yields an absent result
rather than an exception. -/
theorem disk_stats_fallback_no_div_by_zero
    (u : Nat) (pd : Option (Nat × Nat × ℚ)) :
    _disk_stats false (some (0, u)) pd =
      some { total_bytes := 0, used_bytes := u, used_pct := 0 } ∧
    _disk_stats false none pd = none := by
  constructor <;> simp [_disk_stats]

/-! ## `api_status` -/

/-- All the independently failing inputs one request of `api_status` draws
on: each metric reader's outcome, the probe fan-in map and the captured
`systemctl` output per unit (see the embeddings above for the meaning of
each field). -/
structure Sources where
  uptime_seconds : Option ℚ
  temp_files : List (Option String)
  temp_fallback : Option ℚ
  load_1m : Option ℚ
  mem : Option MemStats
  psutil_available : Bool
  shutil_disk : Option (Nat × Nat)
  psutil_disk : Option (Nat × Nat × ℚ)
  net : Option NetStats
  probes : String → Option ProbeResult
  svc_out : String → Option String

/-- Embedding of the `api_status` route handler: assemble the payload from
the source outcomes exactly as the source dict literal does. -/
def api_status (ts : String) (src : Sources) : StatusPayload :=
  let uptime_s := src.uptime_seconds
  let temp_c := _cpu_temp_c src.temp_files src.temp_fallback
  let mem := src.mem
  let disk := _disk_stats src.psutil_available src.shutil_disk src.psutil_disk
  let net := src.net
  { ts := ts
    public_endpoints := _public_endpoint_status src.probes
    pi :=
      { uptime_seconds := uptime_s
        uptime_human := _human_uptime uptime_s
        cpu_temp_c := temp_c
        load_1m := src.load_1m
        mem := mem
        disk := disk
        net := net
        health := _health mem disk temp_c }
    services :=
      [ ("cloudflared",
          _systemctl_active_state "cloudflared.service"
            (src.svc_out "cloudflared.service")),
        ("gunicorn",
          _systemctl_active_state "crown-admin.service"
            (src.svc_out "crown-admin.service")),
        ("nginx",
          _systemctl_active_state "nginx.service"
            (src.svc_out "nginx.service")) ] }

/-! ## JSON view of the payload (what `jsonify` serializes) -/

/-- Minimal JSON value model; Python `None` serializes as `null`. -/
inductive Json where
  | null
  | bool (b : Bool)
  | num (q : ℚ)
  | str (s : String)
  | arr (items : List Json)
  | obj (fields : List (String × Json))

/-- Optional value serialization: an absent value is an explicit `null`,
never an omitted key. -/
def optJson {α : Type} (f : α → Json) : Option α → Json
  | none => .null
  | some a => f a

/-- JSON view of a memory dict. -/
def MemStats.toJson (m : MemStats) : Json :=
  .obj [("total_bytes", .num m.total_bytes), ("used_bytes", .num m.used_bytes),
        ("used_pct", .num m.used_pct)]

/-- JSON view of a disk dict. -/
def DiskStats.toJson (d : DiskStats) : Json :=
  .obj [("total_bytes", .num d.total_bytes), ("used_bytes", .num d.used_bytes),
        ("used_pct", .num d.used_pct)]

/-- JSON view of a network-counters dict. -/
def NetStats.toJson (n : NetStats) : Json :=
  .obj [("tx_bytes", .num n.tx_bytes), ("rx_bytes", .num n.rx_bytes)]

/-- JSON view of a service state dict. -/
def ServiceState.toJson (s : ServiceState) : Json :=
  .obj [("unit", .str s.unit), ("active_state", optJson Json.str s.active_state),
        ("sub_state", optJson Json.str s.sub_state)]

/-- JSON view of one merged endpoint entry. -/
def EndpointEntry.toJson (e : EndpointEntry) : Json :=
  .obj [("id", .str e.id), ("name", .str e.name), ("url", .str e.url),
        ("ok", .bool e.ok),
        ("http_status", optJson (fun n => Json.num n) e.http_status),
        ("latency_ms", optJson (fun n => Json.num n) e.latency_ms),
        ("error", optJson Json.str e.error)]

/-- JSON view of the `pi` sub-object. -/
def PiSnapshot.toJson (p : PiSnapshot) : Json :=
  .obj [("uptime_seconds", optJson Json.num p.uptime_seconds),
        ("uptime_human", optJson Json.str p.uptime_human),
        ("cpu_temp_c", optJson Json.num p.cpu_temp_c),
        ("load_1m", optJson Json.num p.load_1m),
        ("mem", optJson MemStats.toJson p.mem),
        ("disk", optJson DiskStats.toJson p.disk),
        ("net", optJson NetStats.toJson p.net),
        ("health", .str p.health)]

/-- JSON view of the whole payload. -/
def StatusPayload.toJson (p : StatusPayload) : Json :=
  .obj [("ts", .str p.ts),
        ("public_endpoints", .arr (p.public_endpoints.map EndpointEntry.toJson)),
        ("pi", p.pi.toJson),
        ("services", .obj (p.services.map fun kv => (kv.1, kv.2.toJson)))]

/-- Keys of a JSON object (empty for non-objects). -/
def Json.objKeys : Json → List String
  | .obj fields => fields.map Prod.fst
  | _ => []

/-- The all-failures input: psutil missing, every metric read failing, no
probe result arriving, every `systemctl` call failing. -/
def worstSources : Sources :=
  { uptime_seconds := none
    temp_files := [none, none]
    temp_fallback := none
    load_1m := none
    mem := none
    psutil_available := false
    shutil_disk := none
    psutil_disk := none
    net := none
    probes := fun _ => none
    svc_out := fun _ => none }

/-! ## Claim C2: the aggregator is total -/

/-- C2.  For every combination of source outcomes, `api_status` is a total
function whose JSON payload always carries the keys `ts`, `public_endpoints`,
`pi` and `services`, whose `pi` object always carries its eight keys, and
whose service map always carries its three keys; and at the all-failures
input the payload is fully explicit: every unavailable source is an absent
marker (serialized `null`), the health verdict degrades to "warn", every
endpoint gets the synthetic failure entry and every service the absent
states. -/
theorem api_status_total (ts : String) (src : Sources) :
    ((api_status ts src).toJson).objKeys =
      ["ts", "public_endpoints", "pi", "services"] ∧
    ((api_status ts src).pi.toJson).objKeys =
      ["uptime_seconds", "uptime_human", "cpu_temp_c", "load_1m",
       "mem", "disk", "net", "health"] ∧
    (api_status ts src).services.map Prod.fst =
      ["cloudflared", "gunicorn", "nginx"] ∧
    (∀ o : Option ℚ, optJson Json.num o = Json.null ↔ o = none) ∧
    api_status ts worstSources =
      { ts := ts
        public_endpoints :=
          [ { id := "dev", name := "Crown Dev Site",
              url := "https://dev.drcastiel.com", ok := false,
              http_status := none, latency_ms := none,
              error := some "Probe failed" },
            { id := "admin", name := "Admin Portal",
              url := "https://admin.drcastiel.com", ok := false,
              http_status := none, latency_ms := none,
              error := some "Probe failed" },
            { id := "home", name := "DrCastiel Home",
              url := "https://drcastiel.com", ok := false,
              http_status := none, latency_ms := none,
              error := some "Probe failed" } ]
        pi :=
          { uptime_seconds := none, uptime_human := none, cpu_temp_c := none,
            load_1m := none, mem := none, disk := none, net := none,
            health := "warn" }
        services :=
          [ ("cloudflared", ⟨"cloudflared.service", none, none⟩),
            ("gunicorn", ⟨"crown-admin.service", none, none⟩),
            ("nginx", ⟨"nginx.service", none, none⟩) ] } := by
  refine ⟨rfl, rfl, rfl, ?_, rfl⟩
  intro o
  cases o <;> simp [optJson]

/-! ## Shape determinism -/

/-- Presence structure of one probe result. -/
def probeResultShape (r : ProbeResult) : Bool × Bool × Bool :=
  (r.http_status.isSome, r.latency_ms.isSome, r.error.isSome)

/-- Presence structure of one parsed service state. -/
def serviceStateShape (s : ServiceState) : Bool × Bool :=
  (s.active_state.isSome, s.sub_state.isSome)

/-- Present/absent structure of all the sources one request draws on. -/
structure SourcesShape where
  uptime : Bool
  temp : Bool
  load : Bool
  mem : Bool
  disk : Bool
  net : Bool
  probes : List (Option (Bool × Bool × Bool))
  services : List (Bool × Bool)
deriving DecidableEq, Repr

/-- Shape of a source bundle: which metrics resolved, the per-endpoint probe
arrival and result shapes (in declaration order), and the per-unit parsed
state shapes. -/
def sourcesShape (src : Sources) : SourcesShape :=
  { uptime := src.uptime_seconds.isSome
    temp := (_cpu_temp_c src.temp_files src.temp_fallback).isSome
    load := src.load_1m.isSome
    mem := src.mem.isSome
    disk := (_disk_stats src.psutil_available src.shutil_disk src.psutil_disk).isSome
    net := src.net.isSome
    probes := PUBLIC_ENDPOINTS.map fun e => (src.probes e.id).map probeResultShape
    services :=
      [ serviceStateShape
          (_systemctl_active_state "cloudflared.service"
            (src.svc_out "cloudflared.service")),
        serviceStateShape
          (_systemctl_active_state "crown-admin.service"
            (src.svc_out "crown-admin.service")),
        serviceStateShape
          (_systemctl_active_state "nginx.service"
            (src.svc_out "nginx.service")) ] }

/-- Present/absent structure of a payload, at every level: the identifying
strings and option-field flags of each endpoint entry in order, the flags of
every `pi` field, and the key, unit and flags of every service entry. -/
structure PayloadShape where
  endpoints : List (String × String × String × Bool × Bool × Bool)
  uptime : Bool
  human : Bool
  temp : Bool
  load : Bool
  mem : Bool
  disk : Bool
  net : Bool
  services : List (String × String × Bool × Bool)
deriving DecidableEq, Repr

/-- Shape of a payload. -/
def payloadShape (p : StatusPayload) : PayloadShape :=
  { endpoints := p.public_endpoints.map fun e =>
      (e.id, e.name, e.url, e.http_status.isSome, e.latency_ms.isSome,
        e.error.isSome)
    uptime := p.pi.uptime_seconds.isSome
    human := p.pi.uptime_human.isSome
    temp := p.pi.cpu_temp_c.isSome
    load := p.pi.load_1m.isSome
    mem := p.pi.mem.isSome
    disk := p.pi.disk.isSome
    net := p.pi.net.isSome
    services := p.services.map fun kv =>
      (kv.1, kv.2.unit, kv.2.active_state.isSome, kv.2.sub_state.isSome) }

/-- Payload shape determined by a source shape alone: a missing probe result
takes the shape of the synthetic failure entry. -/
def payloadShapeOfSources (σ : SourcesShape) : PayloadShape :=
  { endpoints :=
      List.zipWith
        (fun (e : EndpointSpec) o => (e.id, e.name, e.url, o.getD (false, false, true)))
        PUBLIC_ENDPOINTS σ.probes
    uptime := σ.uptime
    human := σ.uptime
    temp := σ.temp
    load := σ.load
    mem := σ.mem
    disk := σ.disk
    net := σ.net
    services :=
      List.zipWith (fun (ku : String × String) fl => (ku.1, ku.2, fl.1, fl.2))
        [("cloudflared", "cloudflared.service"),
         ("gunicorn", "crown-admin.service"),
         ("nginx", "nginx.service")]
        σ.services }

/-- Helper: the human uptime string is present exactly when the uptime is. -/
theorem human_uptime_isSome (o : Option ℚ) :
    (_human_uptime o).isSome = o.isSome := by
  cases o with
  | none => rfl
  | some q =>
    simp only [_human_uptime]
    split_ifs <;> rfl

/-- Helper: the payload's shape is a function of the sources' shape. -/
theorem payloadShape_api_status (ts : String) (src : Sources) :
    payloadShape (api_status ts src) = payloadShapeOfSources (sourcesShape src) := by
  cases hu : src.uptime_seconds <;>
    cases h1 : src.probes "dev" <;>
      cases h2 : src.probes "admin" <;>
        cases h3 : src.probes "home" <;>
          simp [api_status, payloadShape, payloadShapeOfSources, sourcesShape,
            _public_endpoint_status, PUBLIC_ENDPOINTS, human_uptime_isSome, hu,
            h1, h2, h3, probeResultShape, serviceStateShape,
            _systemctl_active_state, syntheticProbeFailure]

/-! ## Claim C9: structural determinism of the payload -/

/-- C9.  `api_status` is deterministic in its sources' structure: two runs
whose sources resolve with the same present/absent structure produce
payloads with the same fields present or absent at every level, whatever the
concrete timestamps, counters and latencies are. -/
theorem api_status_shape_deterministic (ts1 ts2 : String) (s1 s2 : Sources)
    (h : sourcesShape s1 = sourcesShape s2) :
    payloadShape (api_status ts1 s1) = payloadShape (api_status ts2 s2) := by
  rw [payloadShape_api_status, payloadShape_api_status, h]

/-- Sources for one fully successful run. -/
def okSourcesA : Sources :=
  { uptime_seconds := some 90000
    temp_files := [some "42000", none]
    temp_fallback := none
    load_1m := some 1
    mem := some ⟨1000, 500, 50⟩
    psutil_available := true
    shutil_disk := none
    psutil_disk := some (1000, 500, 50)
    net := some ⟨1, 2⟩
    probes := fun _ => some (_probe_http (.response 200 10))
    svc_out := fun _ => some "ActiveState=active\nSubState=running" }

/-- Sources for a second successful run with different concrete values but
the same present/absent structure. -/
def okSourcesB : Sources :=
  { uptime_seconds := some 90
    temp_files := [some "50000", none]
    temp_fallback := none
    load_1m := some 2
    mem := some ⟨2000, 100, 5⟩
    psutil_available := true
    shutil_disk := none
    psutil_disk := some (2000, 100, 5)
    net := some ⟨3, 4⟩
    probes := fun _ => some (_probe_http (.response 404 20))
    svc_out := fun _ => some "ActiveState=failed\nSubState=dead" }

/-- Witness for `api_status_shape_deterministic`: two runs at different
timestamps with different values but identically-shaped sources. -/
theorem api_status_shape_deterministic_witness :
    payloadShape (api_status "2025-01-01T00:00:00Z" okSourcesA) =
      payloadShape (api_status "2025-01-02T12:34:56Z" okSourcesB) :=
  api_status_shape_deterministic "2025-01-01T00:00:00Z" "2025-01-02T12:34:56Z"
    okSourcesA okSourcesB (by decide)
